import Mathlib

/-!
Verification of the mcp-server-serper repository's natural-language
specification against a shallow embedding of its Python sources.

The repository contains several near-duplicated Serper API clients and MCP
servers.  The embedding below models, faithfully to the source files:

* a JSON value type (`JVal`) standing for Python dicts/lists/strings as they
  flow through the code, together with Python truthiness, `dict.get`
  semantics and `json.dumps` serialization;
* `SerperPy` — `mcp-server-python/src/mcp_server_serper/serper_client.py`
  (`search`, `scrape`, `health` over an abstract HTTP outcome);
* `StdioClient` — the `SerperClient` of `mcp_serper_server.py` /
  `src/services/serper_client.py` (payload construction and request targets);
* `Facade` — the `SerperSearchTools` of `mcp_serper_server.py`;
* `Stdio` — the stdio MCP dispatch loop of `main.py` (`handle_message`,
  `main`);
* `SSE` — the FastAPI SSE server of
  `mcp-server-python/src/mcp_server_serper/server.py` (auth middleware,
  `/sse` registration, `/messages` endpoint, transport registry, shutdown).

Network effects are modelled by passing the outcome of the upstream HTTP
call (or the upstream client itself) as an explicit argument, so that every
definition is executable.
-/

/-- JSON values, standing for the Python values the servers pass around.
Numbers are modelled as integers (no float appears in any claim). Objects
keep insertion order, as Python dicts do. -/
inductive JVal where
  | null
  | bool (b : Bool)
  | num (n : Int)
  | str (s : String)
  | arr (xs : List JVal)
  | obj (kvs : List (String × JVal))
deriving Repr

/-- A Python dict with string keys, in insertion order. -/
abbrev JObj := List (String × JVal)

/-- Lookup of a key in a dict (first binding wins, as in a Python dict where
keys are unique). `none` models a missing key. -/
def jLookup (o : JObj) (k : String) : Option JVal :=
  match o with
  | [] => none
  | (k2, v) :: rest => if k2 = k then some v else jLookup rest k

/-- Python `d.get(k, default)`. -/
def jGetD (o : JObj) (k : String) (d : JVal) : JVal :=
  (jLookup o k).getD d

/-- Python `k in d`. -/
def jHasKey (o : JObj) (k : String) : Bool :=
  (jLookup o k).isSome

/-- Python truthiness of a value. -/
def jTruthy : JVal → Bool
  | .null => false
  | .bool b => b
  | .num n => n != 0
  | .str s => s ≠ ""
  | .arr xs => !xs.isEmpty
  | .obj kvs => !kvs.isEmpty

/-- Python truthiness of a `d.get(k)` result (`None` for a missing key). -/
def jOptTruthy : Option JVal → Bool
  | none => false
  | some v => jTruthy v

/-- Whether a value is exactly the string `s` (Python `v == "s"`, which is
`False` for non-strings). -/
def jIsStr (v : JVal) (s : String) : Bool :=
  match v with
  | .str t => t = s
  | _ => false

/-- Python dict assignment `d[k] = v`: replaces the value in place if the key
exists, otherwise appends the binding. -/
def dictSet {β : Type} (o : List (String × β)) (k : String) (v : β) :
    List (String × β) :=
  match o with
  | [] => [(k, v)]
  | (k2, v2) :: rest =>
    if k2 = k then (k2, v) :: rest else (k2, v2) :: dictSet rest k v

/-- Python `del d[k]` (removing every binding of the key; a dict has at most
one). -/
def dictDel {β : Type} (o : List (String × β)) (k : String) :
    List (String × β) :=
  o.filter (fun p => p.1 ≠ k)

/-- Python `d.update(other)`: assigns each binding of `other` in order. -/
def dictUpdate (o extra : JObj) : JObj :=
  extra.foldl (fun acc p => dictSet acc p.1 p.2) o

/-- One hexadecimal digit, for JSON control-character escapes. -/
def hexDigit (n : Nat) : Char :=
  if n < 10 then Char.ofNat (48 + n) else Char.ofNat (87 + n)

/-- JSON escaping of one character, following `json.dumps` with
`ensure_ascii=False`: quote, backslash and control characters are escaped,
everything else is kept verbatim. -/
def escChar (c : Char) : String :=
  if c = '"' then "\\\""
  else if c = '\\' then "\\\\"
  else if c = '\x0a' then "\\n"
  else if c = '\x09' then "\\t"
  else if c = '\x0d' then "\\r"
  else if c.toNat < 32 then
    "\\u00" ++ String.mk [hexDigit (c.toNat / 16), hexDigit (c.toNat % 16)]
  else String.singleton c

/-- JSON escaping of a string body. -/
def escString (s : String) : String :=
  String.join (s.data.map escChar)

mutual

/-- `json.dumps` with its default separators (`", "` and `": "`) and
`ensure_ascii=False`, as used by `main.py` for responses and tool results. -/
def jsonDumps : JVal → String
  | .null => "null"
  | .bool true => "true"
  | .bool false => "false"
  | .num n => toString n
  | .str s => "\"" ++ escString s ++ "\""
  | .arr xs => "[" ++ jsonDumpsList xs ++ "]"
  | .obj kvs => "\x7b" ++ jsonDumpsObj kvs ++ "\x7d"

/-- Serialization of array elements, comma-separated. -/
def jsonDumpsList : List JVal → String
  | [] => ""
  | [x] => jsonDumps x
  | x :: xs => jsonDumps x ++ ", " ++ jsonDumpsList xs

/-- Serialization of object bindings, comma-separated. -/
def jsonDumpsObj : List (String × JVal) → String
  | [] => ""
  | [(k, v)] => "\"" ++ escString k ++ "\": " ++ jsonDumps v
  | (k, v) :: kvs =>
    "\"" ++ escString k ++ "\": " ++ jsonDumps v ++ ", " ++ jsonDumpsObj kvs

end

mutual

/-- Python `repr` for the modelled values (used by f-string interpolation of
non-string values inside error messages). -/
def pyRepr : JVal → String
  | .null => "None"
  | .bool true => "True"
  | .bool false => "False"
  | .num n => toString n
  | .str s => "\x27" ++ s ++ "\x27"
  | .arr xs => "[" ++ pyReprList xs ++ "]"
  | .obj kvs => "\x7b" ++ pyReprObj kvs ++ "\x7d"

/-- `repr` of list elements. -/
def pyReprList : List JVal → String
  | [] => ""
  | [x] => pyRepr x
  | x :: xs => pyRepr x ++ ", " ++ pyReprList xs

/-- `repr` of dict bindings. -/
def pyReprObj : List (String × JVal) → String
  | [] => ""
  | [(k, v)] => "\x27" ++ k ++ "\x27: " ++ pyRepr v
  | (k, v) :: kvs => "\x27" ++ k ++ "\x27: " ++ pyRepr v ++ ", " ++ pyReprObj kvs

end

/-- Python `str` (f-string interpolation): a string interpolates verbatim,
any other value through its `repr`-like rendering. -/
def pyStr (v : JVal) : String :=
  match v with
  | .str s => s
  | v => pyRepr v

/-- Python `str.lower()`, character by character. -/
def strLower (s : String) : String := String.mk (s.data.map Char.toLower)

namespace SerperPy

/-!
Embedding of `mcp-server-python/src/mcp_server_serper/serper_client.py`.

The outcome of the underlying `httpx` call is made explicit: either a
response arrived (with its status code and, when the body parses as JSON,
the parsed body — `none` models a body `response.json()` fails on), or the
transport failed before any response (`httpx` connection errors and the
like).  `raise_for_status` raises exactly when the status is not a 2xx
success status.
-/

/-- Outcome of one HTTP attempt as seen by the client. -/
inductive HttpAttempt where
  | response (status : Nat) (body : Option JVal)
  | transportError (msg : String)
deriving Repr

/-- `httpx.Response.is_success`: a 2xx status. -/
def isSuccessStatus (status : Nat) : Bool :=
  200 ≤ status && status < 300

/-- URL base of the client, `config.SERPER_API_URL` in `config.py`. -/
def SERPER_API_URL : String := "https://google.serper.dev"

/-- Request URL built by `SerperClient.search`. -/
def searchUrl : String := SERPER_API_URL ++ "/search"

/-- Request URL built by `SerperClient.scrape`. -/
def scrapeUrl : String := SERPER_API_URL ++ "/scrape"

/-- Request URL built by `SerperClient.health`. -/
def healthUrl : String := SERPER_API_URL ++ "/_health"

/-- Payload built by `SerperClient.search`: mandatory `q`/`gl`/`hl`, `num`
when not `None`, then `payload.update(kwargs)`. -/
def searchPayload (q gl hl : String) (num : Option Int) (kwargs : JObj) :
    JObj :=
  let payload : JObj := [("q", .str q), ("gl", .str gl), ("hl", .str hl)]
  let payload := match num with
    | some n => dictSet payload "num" (.num n)
    | none => payload
  dictUpdate payload kwargs

/-- Payload built by `SerperClient.scrape`. -/
def scrapePayload (url : String) (includeMarkdown : Bool) : JObj :=
  [("url", .str url), ("includeMarkdown", .bool includeMarkdown)]

/-- `SerperClient.search`: posts the payload, then `raise_for_status()` and
`response.json()`.  `Except.error` models a raised exception (both the
re-raised `HTTPStatusError` and any other re-raised exception). -/
def search (att : HttpAttempt) : Except String JVal :=
  match att with
  | .transportError m => .error m
  | .response status body =>
    if isSuccessStatus status then
      match body with
      | some j => .ok j
      | none => .error "response body is not valid JSON"
    else .error ("HTTP status error: " ++ toString status)

/-- `SerperClient.scrape`: identical error structure to `search`. -/
def scrape (att : HttpAttempt) : Except String JVal :=
  match att with
  | .transportError m => .error m
  | .response status body =>
    if isSuccessStatus status then
      match body with
      | some j => .ok j
      | none => .error "response body is not valid JSON"
    else .error ("HTTP status error: " ++ toString status)

/-- The error dict `health` returns on failure, with the stringified
exception as its message. -/
def healthErrorDict (msg : String) : JVal :=
  .obj [("status", .str "error"), ("message", .str msg)]

/-- `SerperClient.health`: GETs `/_health` and returns the parsed body, but
catches every exception (`HTTPStatusError` and the generic `Exception`
clause) and turns it into `{"status": "error", "message": str(e)}`. -/
def health (att : HttpAttempt) : JVal :=
  match att with
  | .transportError m => healthErrorDict m
  | .response status body =>
    if isSuccessStatus status then
      match body with
      | some j => j
      | none => healthErrorDict "response body is not valid JSON"
    else healthErrorDict ("HTTP status error: " ++ toString status)

end SerperPy

namespace StdioClient

/-!
Embedding of the `SerperClient` shared by `mcp_serper_server.py` and
`src/services/serper_client.py` (the stdio variant).  Every endpoint method
funnels through `_make_request`, which opens
`http.client.HTTPSConnection(self.base_url)`; `base_url` defaults to
`"google.serper.dev"`.  Only the request construction is modelled here —
what matters to the claims is which host each operation targets and which
payload it carries.
-/

/-- An HTTPS request as issued by `http.client.HTTPSConnection`: the
connection host, the method, the request target and the serialized body. -/
structure HttpsRequest where
  host : String
  method : String
  path : String
  body : Option String
deriving Repr

/-- Client state set up by `SerperClient.__init__`. -/
structure ClientCfg where
  apiKey : String
  baseUrl : String
deriving Repr

/-- `SerperClient(api_key)` with the default `base_url="google.serper.dev"`.-/
def mkClient (apiKey : String) (baseUrl : String := "google.serper.dev") :
    ClientCfg :=
  { apiKey := apiKey, baseUrl := baseUrl }

/-- `_make_request`: connects to `self.base_url` and sends the JSON-dumped
payload (or no body when the payload is `None`). -/
def makeRequest (c : ClientCfg) (method endpoint : String)
    (payload : Option JVal) : HttpsRequest :=
  { host := c.baseUrl, method := method, path := endpoint,
    body := payload.map jsonDumps }

/-- Advanced search operators copied into the payload by `search` when
present and truthy. -/
def advancedOps : List String :=
  ["site", "filetype", "inurl", "intitle", "related",
   "cache", "before", "after", "exact", "exclude", "or",
   "tbs"]

/-- `if k in params: payload[k] = params[k]` — the step the payload builders
repeat for each optional key. -/
def optStep (params acc : JObj) (k : String) : JObj :=
  if jHasKey params k then dictSet acc k (jGetD params k .null) else acc

/-- `if op in params and params[op]: payload[op] = params[op]` — the step of
the advanced-operator loop of `search`. -/
def advStep (params acc : JObj) (op : String) : JObj :=
  if jHasKey params op && jTruthy (jGetD params op .null) then
    dictSet acc op (jGetD params op .null)
  else acc

/-- Payload built by `SerperClient.search` (lines 84–105 of
`mcp_serper_server.py`): `q` as given (`None` when missing), defaults
`gl="us"`, `hl="en"`, `autocorrect=True`, then optional `location`, `num`,
`page` when present, then each truthy advanced operator. -/
def searchPayload (params : JObj) : JObj :=
  let payload : JObj :=
    [("q", jGetD params "q" .null),
     ("gl", jGetD params "gl" (.str "us")),
     ("hl", jGetD params "hl" (.str "en")),
     ("autocorrect", jGetD params "autocorrect" (.bool true))]
  let payload := optStep params payload "location"
  let payload := optStep params payload "num"
  let payload := optStep params payload "page"
  advancedOps.foldl (advStep params) payload

/-- The request `search` issues. -/
def searchRequest (c : ClientCfg) (params : JObj) : HttpsRequest :=
  makeRequest c "POST" "/search" (some (.obj (searchPayload params)))

/-- Payload built by `SerperClient.scrape`. -/
def scrapePayload (params : JObj) : JObj :=
  [("url", jGetD params "url" .null),
   ("includeMarkdown", jGetD params "includeMarkdown" (.bool false))]

/-- The request `scrape` issues. -/
def scrapeRequest (c : ClientCfg) (params : JObj) : HttpsRequest :=
  makeRequest c "POST" "/scrape" (some (.obj (scrapePayload params)))

/-- The request `health` issues: it opens its own
`HTTPSConnection(self.base_url)` and GETs `/health` with no body. -/
def healthRequest (c : ClientCfg) : HttpsRequest :=
  { host := c.baseUrl, method := "GET", path := "/health", body := none }

/-- Payload built by `SerperClient.analyze_serp`. -/
def analyzeSerpPayload (params : JObj) : JObj :=
  let payload : JObj :=
    [("query", jGetD params "query" .null),
     ("gl", jGetD params "gl" (.str "us")),
     ("hl", jGetD params "hl" (.str "en")),
     ("google_domain", jGetD params "google_domain" (.str "google.com")),
     ("num", jGetD params "num" (.num 10)),
     ("device", jGetD params "device" (.str "desktop"))]
  optStep params (optStep params payload "location") "safe"

/-- The request `analyze_serp` issues. -/
def analyzeSerpRequest (c : ClientCfg) (params : JObj) : HttpsRequest :=
  makeRequest c "POST" "/analyze-serp" (some (.obj (analyzeSerpPayload params)))

/-- Payload built by `SerperClient.research_keywords`. -/
def researchKeywordsPayload (params : JObj) : JObj :=
  let payload : JObj := [("keyword", jGetD params "keyword" .null)]
  let payload := ["language", "location"].foldl (optStep params) payload
  ["include_questions", "include_related", "include_suggestions"].foldl
    (optStep params) payload

/-- The request `research_keywords` issues. -/
def researchKeywordsRequest (c : ClientCfg) (params : JObj) : HttpsRequest :=
  makeRequest c "POST" "/keyword-research"
    (some (.obj (researchKeywordsPayload params)))

/-- Payload built by `SerperClient.analyze_competitors`. -/
def analyzeCompetitorsPayload (params : JObj) : JObj :=
  let payload : JObj := [("domain", jGetD params "domain" .null)]
  let payload := optStep params payload "keyword"
  let payload := optStep params payload "num_results"
  optStep params payload "include_features"

/-- The request `analyze_competitors` issues. -/
def analyzeCompetitorsRequest (c : ClientCfg) (params : JObj) :
    HttpsRequest :=
  makeRequest c "POST" "/competitor-analysis"
    (some (.obj (analyzeCompetitorsPayload params)))

/-- Query list built by `SerperClient.autocomplete` from `queries` with the
defaults `gl="us"`, `hl="en"` and an optional `location`. -/
def autocompleteQueryList (queries : List JVal) (gl hl location : String) :
    List JVal :=
  queries.map (fun q =>
    let item : JObj := [("q", q), ("gl", .str gl), ("hl", .str hl)]
    .obj (if location ≠ "" then dictSet item "location" (.str location)
          else item))

/-- The request `autocomplete` issues (the payload is the query list, not a
dict). -/
def autocompleteRequest (c : ClientCfg) (queryList : List JVal) :
    HttpsRequest :=
  makeRequest c "POST" "/autocomplete" (some (.arr queryList))

end StdioClient

namespace Facade

/-!
Embedding of `SerperSearchTools` in `mcp_serper_server.py` (lines 686–1012).
Most methods wrap the corresponding `SerperClient` call in
`try: return self.serper_client.X(params) except Exception as e: raise
Exception("SearchTool: ...")`; `video_search`, `youtube_search` and
`instagram_search` (lines 841–877) are bare delegations with no
`try/except`, so a client exception propagates unwrapped.  The underlying
client call is abstracted as an explicit function argument
(`Except.error` modelling a raised exception), so the façade's own
behaviour — what it passes to the client and how it transforms the client's
outcome — is fully visible.
-/

/-- `SerperSearchTools.search`. -/
def search (client : JObj → Except String JVal) (params : JObj) :
    Except String JVal :=
  match client params with
  | .ok r => .ok r
  | .error e =>
    .error ("SearchTool: failed to search for \x27"
      ++ pyStr (jGetD params "q" .null) ++ "\x27. " ++ e)

/-- `SerperSearchTools.scrape`. -/
def scrape (client : JObj → Except String JVal) (params : JObj) :
    Except String JVal :=
  match client params with
  | .ok r => .ok r
  | .error e => .error ("SearchTool: failed to scrape. " ++ e)

/-- `SerperSearchTools.health` (the client method receives the same
`params` argument). -/
def health (client : JObj → Except String JVal) (params : JObj) :
    Except String JVal :=
  match client params with
  | .ok r => .ok r
  | .error e => .error ("SearchTool: health check failed. " ++ e)

/-- `SerperSearchTools.image_search`. -/
def imageSearch (client : JObj → Except String JVal) (params : JObj) :
    Except String JVal :=
  match client params with
  | .ok r => .ok r
  | .error e =>
    .error ("SearchTool: failed to search images for \x27"
      ++ pyStr (jGetD params "q" .null) ++ "\x27. " ++ e)

/-- `SerperSearchTools.news_search` (the pass-through shape shared by
`maps_search`, `reviews_search`, `shopping_search`, `lens_search`,
`scholar_search`, `patents_search`, `webpage_search` and `places_search`,
which differ only in the client method called and the message text). -/
def newsSearch (client : JObj → Except String JVal) (params : JObj) :
    Except String JVal :=
  match client params with
  | .ok r => .ok r
  | .error e =>
    .error ("SearchTool: failed to search news for \x27"
      ++ pyStr (jGetD params "q" .null) ++ "\x27. " ++ e)

/-- `SerperSearchTools.video_search` (lines 841–843): a bare delegation —
`return self.serper_client.video_search(query, location, gl, hl, num)` with
no `try/except`, so the client's outcome, a raised exception included, is
returned unchanged. -/
def videoSearch
    (client : JVal → JVal → JVal → JVal → JVal → Except String JVal)
    (query location gl hl num : JVal) : Except String JVal :=
  client query location gl hl num

/-- `SerperSearchTools.youtube_search` (lines 845–860): a bare delegation
of `(q, location, gl, hl, num, tbs)` with no `try/except`. -/
def youtubeSearch
    (client : JVal → JVal → JVal → JVal → JVal → JVal → Except String JVal)
    (q location gl hl num tbs : JVal) : Except String JVal :=
  client q location gl hl num tbs

/-- `SerperSearchTools.instagram_search` (lines 862–877): a bare delegation
of `(q, location, gl, hl, num, tbs)` with no `try/except`. -/
def instagramSearch
    (client : JVal → JVal → JVal → JVal → JVal → JVal → Except String JVal)
    (q location gl hl num tbs : JVal) : Except String JVal :=
  client q location gl hl num tbs

/-- Python `for q in queries` over a JSON value: a list iterates its
elements, a string its characters (each a 1-character string), a dict its
keys; numbers, booleans and `None` are not iterable and raise
`TypeError`. -/
def pyIter : JVal → Option (List JVal)
  | .arr xs => some xs
  | .str s => some (s.data.map (fun c => JVal.str (String.singleton c)))
  | .obj kvs => some (kvs.map (fun p => JVal.str p.1))
  | _ => none

/-- Exception message for iterating a non-iterable value (the
interpreter's exact `TypeError` text is abstracted to a constant, which no
claim inspects). -/
def notIterableError : String := "object is not iterable"

/-- The query list built by `autocomplete`'s loop: one
`{"q": q, "gl": gl, "hl": hl}` item per iterated element, plus `location`
when truthy. -/
def queryItems (qs : List JVal) (gl hl location : JVal) : List JVal :=
  qs.map (fun q =>
    let item : JObj := [("q", q), ("gl", gl), ("hl", hl)]
    JVal.obj (if jTruthy location then dictSet item "location" location
              else item))

/-- `SerperSearchTools.autocomplete` (lines 800–839): the only method with
logic of its own.  It reads `queries` (default `[]`), `location` (default
`""`), `gl` (default `"us"`), `hl` (default `"en"`); raises `ValueError`
when `queries` is falsy — caught and wrapped by its own `except`, so the
client is never invoked — and otherwise iterates `queries` (per element
for a list, per character for a string, per key for a dict), builds the
query list, and calls `client.autocomplete(query_list)`, wrapping a client
exception; a truthy non-iterable `queries` raises `TypeError` inside the
`try`, wrapped without any client call. -/
def autocomplete (client : List JVal → Except String JVal) (params : JObj) :
    Except String JVal :=
  let queries := jGetD params "queries" (.arr [])
  let location := jGetD params "location" (.str "")
  let gl := jGetD params "gl" (.str "us")
  let hl := jGetD params "hl" (.str "en")
  if !jTruthy queries then
    .error ("SearchTool: failed to get autocomplete suggestions. "
      ++ "No queries provided for autocomplete")
  else
    match pyIter queries with
    | some qs =>
      match client (queryItems qs gl hl location) with
      | .ok r => .ok r
      | .error e =>
        .error ("SearchTool: failed to get autocomplete suggestions. " ++ e)
    | none =>
      .error ("SearchTool: failed to get autocomplete suggestions. "
        ++ notIterableError)

end Facade

namespace Stdio

/-!
Embedding of the stdio MCP server in `main.py`: the `tools_definitions`
table (lines 35–562), `handle_message` (lines 566–811) and the stdin/stdout
loop in `main` (lines 814–835).  `mcp_serper_server.py` carries the same
`handle_message` shape with two more tools.

The free-text `"description"` fields of the tool table are presentation
strings with no behavioural content; each tool entry is modelled by its
parameter names with their `"type"` and its `"required"` list, exactly as
they appear in the source.
-/

/-- One tool entry of `tools_definitions`: its parameter schema (name and
type, in source order) and its required-parameter list. -/
def toolDef (params : List (String × String)) (required : List String) :
    JVal :=
  .obj [("parameters",
          .obj (params.map (fun p => (p.1, JVal.obj [("type", .str p.2)])))),
        ("required", .arr (required.map JVal.str))]

/-- The `tools_definitions` table of `main.py`, in source order. -/
def toolsDefinitions : JVal :=
  .obj
    [("google_search", toolDef
        [("q", "string"), ("gl", "string"), ("hl", "string"),
         ("location", "string"), ("num", "number"), ("tbs", "string"),
         ("page", "number"), ("autocorrect", "boolean"), ("site", "string"),
         ("filetype", "string"), ("inurl", "string"), ("intitle", "string"),
         ("related", "string"), ("cache", "string"), ("before", "string"),
         ("after", "string"), ("exact", "string"), ("exclude", "string"),
         ("or", "string")]
        ["q", "gl", "hl"]),
     ("scrape", toolDef
        [("url", "string"), ("includeMarkdown", "boolean")] ["url"]),
     ("_health", toolDef [("random_string", "string")] ["random_string"]),
     ("analyze_serp", toolDef
        [("query", "string"), ("gl", "string"), ("hl", "string"),
         ("google_domain", "string"), ("num", "number"), ("device", "string"),
         ("location", "string"), ("safe", "string")]
        ["query"]),
     ("research_keywords", toolDef
        [("keyword", "string"), ("language", "string"), ("location", "string"),
         ("include_questions", "boolean"), ("include_related", "boolean"),
         ("include_suggestions", "boolean")]
        ["keyword"]),
     ("analyze_competitors", toolDef
        [("domain", "string"), ("keyword", "string"),
         ("include_features", "boolean"), ("num_results", "number")]
        ["domain"]),
     ("autocomplete", toolDef
        [("queries", "array"), ("location", "string"), ("gl", "string"),
         ("hl", "string")]
        ["queries"]),
     ("image_search", toolDef
        [("q", "string"), ("gl", "string"), ("hl", "string"),
         ("num", "number"), ("location", "string")]
        ["q"]),
     ("video_search", toolDef
        [("q", "string"), ("gl", "string"), ("hl", "string"),
         ("num", "number"), ("location", "string")]
        ["q"]),
     ("maps_search", toolDef
        [("q", "string"), ("gl", "string"), ("hl", "string"),
         ("location", "string"), ("num", "number")]
        ["q"]),
     ("reviews_search", toolDef
        [("q", "string"), ("gl", "string"), ("hl", "string"),
         ("location", "string"), ("num", "number")]
        ["q"]),
     ("shopping_search", toolDef
        [("q", "string"), ("gl", "string"), ("hl", "string"),
         ("location", "string"), ("num", "number")]
        ["q"]),
     ("lens_search", toolDef
        [("image_url", "string"), ("gl", "string"), ("hl", "string"),
         ("location", "string")]
        ["image_url"]),
     ("scholar_search", toolDef
        [("q", "string"), ("gl", "string"), ("hl", "string"),
         ("location", "string"), ("num", "number"), ("year_min", "number"),
         ("year_max", "number")]
        ["q"]),
     ("patents_search", toolDef
        [("q", "string"), ("gl", "string"), ("hl", "string"),
         ("location", "string"), ("num", "number"), ("patent_office", "string")]
        ["q"]),
     ("webpage_search", toolDef
        [("url", "string"), ("extract_content", "boolean"),
         ("extract_metadata", "boolean")]
        ["url"]),
     ("news_search", toolDef
        [("q", "string"), ("gl", "string"), ("hl", "string"),
         ("location", "string"), ("num", "number"), ("timerange", "string")]
        ["q"]),
     ("places_search", toolDef
        [("q", "string"), ("gl", "string"), ("hl", "string"),
         ("location", "string"), ("num", "number")]
        ["q"])]

/-- The tool names of the `mcp.CallTool` `elif` chain of `handle_message`,
in source order.  Each branch calls the `SerperSearchTools` method of the
same name with the message's `arguments` and wraps the result identically
(`video_search` spreads the arguments as keyword arguments, which the tools
oracle absorbs). -/
def dispatchNames : List String :=
  ["google_search", "scrape", "_health", "analyze_serp", "research_keywords",
   "analyze_competitors", "autocomplete", "image_search", "video_search",
   "maps_search", "reviews_search", "shopping_search", "lens_search",
   "scholar_search", "patents_search", "webpage_search", "news_search",
   "places_search"]

/-- The success response of a `mcp.CallTool` branch: the tool result
JSON-serialized as the single text content item. -/
def contentResponse (mid : JVal) (result : JVal) : JObj :=
  [("id", mid),
   ("result", .obj
     [("content", .arr
       [.obj [("type", .str "text"), ("text", .str (jsonDumps result))]])])]

/-- The response built by the outer `except Exception` clause of
`handle_message`: the request id and `"Erro interno do servidor: {e}"`. -/
def exceptionResponse (mid : JVal) (emsg : String) : JObj :=
  [("id", mid),
   ("error", .obj [("message",
     .str ("Erro interno do servidor: " ++ emsg))])]

/-- Exception message used when `params.get` / `arguments` handling is
applied to a non-dict value (Python raises `AttributeError`/`TypeError`
there; the interpreter's exact message text is abstracted to a constant,
which no claim inspects). -/
def nonDictError : String := "object is not a dict"

/-- `handle_message` of `main.py`.  `tools` is the `SerperSearchTools`
instance, abstracted as an oracle from tool name and arguments to the call's
outcome (`Except.error` modelling a raised exception, which the enclosing
`try` of `handle_message` converts into an error response). -/
def handleMessage (tools : String → JObj → Except String JVal)
    (message : JObj) : JObj :=
  let methodV := jLookup message "method"
  if !jOptTruthy methodV then
    [("error", .obj [("message", .str "Nenhum método especificado")])]
  else
    let mid := jGetD message "id" .null
    if jIsStr (jGetD message "method" .null) "mcp.ListTools" then
      [("id", mid), ("result", .obj [("tools", toolsDefinitions)])]
    else if jIsStr (jGetD message "method" .null) "mcp.CallTool" then
      match jGetD message "params" (.obj []) with
      | .obj params =>
        let toolNameV := jGetD params "name" .null
        match jGetD params "arguments" (.obj []) with
        | .obj args =>
          match toolNameV with
          | .str n =>
            if n ∈ dispatchNames then
              match tools n args with
              | .ok r => contentResponse mid r
              | .error e => exceptionResponse mid e
            else
              [("id", mid), ("error", .obj [("message",
                .str ("Ferramenta desconhecida: " ++ n))])]
          | v =>
            [("id", mid), ("error", .obj [("message",
              .str ("Ferramenta desconhecida: " ++ pyStr v))])]
        | _ => exceptionResponse mid nonDictError
      | _ => exceptionResponse mid nonDictError
    else
      [("id", mid), ("error", .obj [("message",
        .str ("Método não implementado: "
          ++ pyStr (jGetD message "method" .null)))])]

/-- One iteration of the stdin loop in `main`: a line that fails JSON
parsing (`none`) is skipped (`continue`), otherwise the response is written
as `json.dumps(response) + "\n"` in a single `write`. -/
def mainLoop (tools : String → JObj → Except String JVal)
    (messages : List (Option JObj)) : List String :=
  messages.filterMap (fun m =>
    match m with
    | none => none
    | some msg => some (jsonDumps (.obj (handleMessage tools msg)) ++ "\x0a"))

end Stdio

namespace SSE

/-!
Embedding of `mcp-server-python/src/mcp_server_serper/server.py`:
`SSEServerTransport`, the auth middleware, the `/sse` and `/messages`
endpoints, and `MCPServerApp.shutdown`.
-/

/-- The state of an `SSEServerTransport` relevant to the claims: its session
id and its registered tool list (the `response` handle carries no data). -/
structure Transport where
  sessionId : String
  tools : List JVal
deriving Repr

/-- `MCPServerApp.transports`: a dict keyed by session id. -/
abbrev Registry := List (String × Transport)

/-- Lookup in the registry (`self.transports[sid]`). -/
def regLookup (reg : Registry) (sid : String) : Option Transport :=
  match reg with
  | [] => none
  | (k, t) :: rest => if k = sid then some t else regLookup rest sid

/-- `sid in self.transports`. -/
def regHasKey (reg : Registry) (sid : String) : Bool :=
  (regLookup reg sid).isSome

/-- The `google_search` tool definition registered by
`register_tools_for_transport` (the free-text description strings are
presentation text and are abstracted away; names, parameter schema and
required lists are as in the source). -/
def googleSearchTool : JVal :=
  .obj [("name", .str "google_search"),
        ("parameters", .obj
          [("type", .str "object"),
           ("properties", .obj
             [("q", .obj [("type", .str "string")]),
              ("gl", .obj [("type", .str "string")]),
              ("hl", .obj [("type", .str "string")]),
              ("num", .obj [("type", .str "number")]),
              ("page", .obj [("type", .str "number")]),
              ("tbs", .obj [("type", .str "string")]),
              ("site", .obj [("type", .str "string")]),
              ("filetype", .obj [("type", .str "string")])]),
           ("required", .arr [.str "q", .str "gl", .str "hl"])])]

/-- The `scrape` tool definition registered by
`register_tools_for_transport`. -/
def scrapeTool : JVal :=
  .obj [("name", .str "scrape"),
        ("parameters", .obj
          [("type", .str "object"),
           ("properties", .obj
             [("url", .obj [("type", .str "string")]),
              ("includeMarkdown", .obj
                [("type", .str "boolean"), ("default", .bool false)])]),
           ("required", .arr [.str "url"])])]

/-- The `_health` tool definition registered by
`register_tools_for_transport`. -/
def healthTool : JVal :=
  .obj [("name", .str "_health"),
        ("parameters", .obj
          [("type", .str "object"),
           ("properties", .obj
             [("random_string", .obj [("type", .str "string")])]),
           ("required", .arr [.str "random_string"])])]

/-- `register_tools_for_transport`: appends the three tool definitions, in
source order, via `transport.register_tool`. -/
def registerToolsForTransport (t : Transport) : Transport :=
  { t with tools := t.tools ++ [googleSearchTool, scrapeTool, healthTool] }

/-- The name field of a registered tool definition. -/
def toolName (v : JVal) : Option JVal :=
  match v with
  | .obj kvs => jLookup kvs "name"
  | _ => none

/-- `sse_endpoint` (lines 237–274), up to returning the event stream: picks
the session id (the `X-MCP-Session-ID` header when truthy, otherwise a fresh
`uuid4`, supplied here as `freshId`), builds a transport whose
constructor-assigned uuid is overwritten with that session id, registers the
three tools on it, and stores it under the session id.  Returns the updated
registry and the chosen session id. -/
def sseConnect (reg : Registry) (header : Option String) (freshId : String) :
    Registry × String :=
  let sid := match header with
    | none => freshId
    | some s => if s = "" then freshId else s
  let t := registerToolsForTransport { sessionId := sid, tools := [] }
  (dictSet reg sid t, sid)

/-- Client-disconnect cleanup in `sse_endpoint`'s `CancelledError` handler:
`if session_id in self.transports: del self.transports[session_id]`. -/
def sseDisconnect (reg : Registry) (sid : String) : Registry :=
  if regHasKey reg sid then dictDel reg sid else reg

/-- `MCPServerApp.shutdown`: closes every transport and clears the dict. -/
def shutdownRegistry (_reg : Registry) : Registry := []

/-- One event of the SSE stream. -/
structure SseEvent where
  event : String
  data : String
deriving Repr

/-- `SSEServerTransport.stream_generator` after `n` iterations of its keep-
alive loop: first a `connected` event carrying
`json.dumps({"sessionId": self.session_id})`, then a `ping` event on every
iteration whose counter is a multiple of 30 (the counter starts at 0). -/
def streamGen (t : Transport) (n : Nat) : List SseEvent :=
  { event := "connected",
    data := jsonDumps (.obj [("sessionId", .str t.sessionId)]) } ::
    (List.range n).filterMap (fun i =>
      if i % 30 = 0 then some { event := "ping", data := "" } else none)

/-- Outcome of the auth middleware for one request. -/
inductive AuthDecision where
  | reject (status : Nat) (error : String)
  | forward
deriving Repr, DecidableEq

/-- Python `str.split()` with no argument, over the character list: split
on runs of whitespace, producing no empty parts.  `cur` accumulates the
current word in reverse. -/
def splitWSGo : List Char → List Char → List String
  | [], cur => if cur.isEmpty then [] else [String.mk cur.reverse]
  | c :: cs, cur =>
    if c.isWhitespace then
      if cur.isEmpty then splitWSGo cs []
      else String.mk cur.reverse :: splitWSGo cs []
    else splitWSGo cs (c :: cur)

/-- Python `auth_header.split()`. -/
def splitWS (s : String) : List String := splitWSGo s.data []

/-- The malformed-header test of the middleware:
`len(parts) != 2 or parts[0].lower() != "bearer"`. -/
def malformedAuth (parts : List String) : Bool :=
  parts.length ≠ 2 || strLower (parts.headD "") ≠ "bearer"

/-- `auth_middleware` (lines 193–224).  `mcpToken` is `config.MCP_TOKEN`
(`none` when the environment variable is unset); the truthiness test
`if config.MCP_TOKEN:` also skips authentication when the variable is set
to the empty string.  `authHeader` is the request's `Authorization` header
(`none` when absent). -/
def authMiddleware (mcpToken : Option String) (path : String)
    (authHeader : Option String) : AuthDecision :=
  if jOptTruthy (mcpToken.map JVal.str) then
    if path ≠ "/_health" then
      match authHeader with
      | none => .reject 401 "Sem token de autenticação"
      | some h =>
        if h = "" then .reject 401 "Sem token de autenticação"
        else
          let parts := splitWS h
          if malformedAuth parts then
            .reject 401 "Formato de autenticação inválido"
          else if parts.getD 1 "" ≠ mcpToken.getD "" then
            .reject 403 "Token inválido"
          else .forward
    else .forward
  else .forward

/-- Result of one POST to `/messages`: the HTTP status (400 when the handler
raises `HTTPException`, 200 otherwise), the response body (the exception
detail for a 400), the messages pushed over SSE paired with the session id
whose transport carried them, and the registry (the handler never writes to
`self.transports`). -/
structure MessagesOut where
  status : Nat
  body : JVal
  pushes : List (String × JVal)
  registry : Registry
deriving Repr

/-- `{"status": "ok"}`. -/
def okBody : JVal := .obj [("status", .str "ok")]

/-- `{"status": "error", "message": msg}`. -/
def errBody (msg : String) : JVal :=
  .obj [("status", .str "error"), ("message", .str msg)]

/-- A `toolResult` message pushed by `transport.send_message`. -/
def toolResultMsg (name : String) (result : JVal) : JVal :=
  .obj [("type", .str "toolResult"), ("name", .str name), ("result", result)]

/-- An error message pushed by `transport.send_error`. -/
def errorMsg (e : String) : JVal :=
  .obj [("type", .str "error"), ("error", .str e)]

/-- Case-insensitive containment, Python `sub in s.lower()` for a lowercase
literal `sub`. -/
def strHasLower (s sub : String) : Bool :=
  decide ( List.IsInfix sub.data (strLower s).data)

/-- `messages_endpoint` (lines 277–372).  The upstream Serper calls are
passed as oracles: `searchFn` receives the keyword arguments the handler
builds for `serper_client.search`, `scrapeFn` the `url` and
`includeMarkdown` values for `serper_client.scrape`; `Except.error` models a
raised exception (caught by the handler's `try`).  A non-string `query` or a
truthy non-dict `parameters` raises inside the `try` (`.lower()` /
`.get` on the wrong type) and is mapped to the same error path with the
interpreter's message abstracted as `typeErrorMsg`. -/
def typeErrorMsg : String := "object has no attribute"

/-- Keyword arguments built for `serper_client.search` in all search
branches of `messages_endpoint`: the full query as `q`, `gl` defaulting to
`"us"`, `hl` defaulting to `"pt"`. -/
def searchArgsPlain (query : String) (parameters : JObj) : JObj :=
  [("q", .str query),
   ("gl", jGetD parameters "gl" (.str "us")),
   ("hl", jGetD parameters "hl" (.str "pt"))]

/-- The google/busca branch additionally forwards `num` when supplied. -/
def searchArgsNum (query : String) (parameters : JObj) : JObj :=
  if jHasKey parameters "num" then
    dictSet (searchArgsPlain query parameters) "num"
      (jGetD parameters "num" .null)
  else searchArgsPlain query parameters

/-- Core of the `toolInvocation` branch, given the extracted `query` string
and `parameters` dict. -/
def invokeTool (sid : String) (query : String) (parameters : JObj)
    (searchFn : JObj → Except String JVal)
    (scrapeFn : JVal → JVal → Except String JVal) (reg : Registry) :
    MessagesOut :=
  if strHasLower query "google" || strHasLower query "busca" then
    match searchFn (searchArgsNum query parameters) with
    | .ok r =>
      { status := 200, body := okBody,
        pushes := [(sid, toolResultMsg "google_search" r)], registry := reg }
    | .error e =>
      { status := 200, body := errBody e,
        pushes := [(sid, errorMsg ("Erro ao processar mensagem: " ++ e))],
        registry := reg }
  else if strHasLower query "scrape" || strHasLower query "extrair" then
    if !jHasKey parameters "url" then
      { status := 200, body := errBody "URL não informada",
        pushes := [(sid, errorMsg "URL não informada")], registry := reg }
    else
      match scrapeFn (jGetD parameters "url" .null)
          (jGetD parameters "includeMarkdown" (.bool false)) with
      | .ok r =>
        { status := 200, body := okBody,
          pushes := [(sid, toolResultMsg "scrape" r)], registry := reg }
      | .error e =>
        { status := 200, body := errBody e,
          pushes := [(sid, errorMsg ("Erro ao processar mensagem: " ++ e))],
          registry := reg }
  else
    match searchFn (searchArgsPlain query parameters) with
    | .ok r =>
      { status := 200, body := okBody,
        pushes := [(sid, toolResultMsg "google_search" r)], registry := reg }
    | .error e =>
      { status := 200, body := errBody e,
        pushes := [(sid, errorMsg ("Erro ao processar mensagem: " ++ e))],
        registry := reg }

/-- `messages_endpoint` itself: session check, message-type check, then the
`toolInvocation` processing. -/
def messagesEndpoint (reg : Registry) (header : Option String)
    (message : JObj) (searchFn : JObj → Except String JVal)
    (scrapeFn : JVal → JVal → Except String JVal) : MessagesOut :=
  let invalidSession : Bool := match header with
    | none => true
    | some s => s = "" || !regHasKey reg s
  if invalidSession then
    { status := 400, body := .str "Sessão inválida ou expirada",
      pushes := [], registry := reg }
  else
    let sid := header.getD ""
    if !jIsStr (jGetD message "type" .null) "toolInvocation" then
      { status := 400, body := .str "Tipo de mensagem inválido",
        pushes := [], registry := reg }
    else
      match jGetD message "query" (.str ""), jGetD message "parameters" (.obj [])
      with
      | .str query, .obj parameters =>
        invokeTool sid query parameters searchFn scrapeFn reg
      | _, _ =>
        { status := 200, body := errBody typeErrorMsg,
          pushes := [(sid, errorMsg ("Erro ao processar mensagem: "
            ++ typeErrorMsg))],
          registry := reg }

/-- The session-registry invariant of C4: every stored transport carries the
key it is stored under as its session id. -/
def registryInv (reg : Registry) : Prop :=
  ∀ p ∈ reg, p.2.sessionId = p.1

end SSE

/-! ## Supporting lemmas -/

/-- No newline character occurs in the string (so writing it followed by a
single `"\n"` emits exactly one line). -/
def noNL (s : String) : Bool := s.data.all (fun c => c != '\x0a')

theorem noNL_append {a b : String} (ha : noNL a) (hb : noNL b) :
    noNL (a ++ b) := by
  simp only [noNL, String.data_append, List.all_append, Bool.and_eq_true] at *
  exact ⟨ha, hb⟩

theorem digitChar_ne_newline {m : Nat} (h : m < 10) :
    Nat.digitChar m ≠ '\x0a' := by
  interval_cases m <;> decide

theorem toDigitsCore_noNL (fuel n : Nat) (ds : List Char)
    (hds : ∀ c ∈ ds, c ≠ '\x0a') :
    ∀ c ∈ Nat.toDigitsCore 10 fuel n ds, c ≠ '\x0a' := by
  induction fuel generalizing n ds with
  | zero => simpa [Nat.toDigitsCore] using hds
  | succ fuel ih =>
    simp only [Nat.toDigitsCore]
    split
    · intro c hc
      rcases List.mem_cons.mp hc with h | h
      · exact h ▸ digitChar_ne_newline (Nat.mod_lt _ (by omega))
      · exact hds c h
    · exact ih _ _ (by
        intro c hc
        rcases List.mem_cons.mp hc with h | h
        · exact h ▸ digitChar_ne_newline (Nat.mod_lt _ (by omega))
        · exact hds c h)

theorem natRepr_noNL (n : Nat) : noNL (Nat.repr n) := by
  simp only [noNL, Nat.repr, List.asString, List.all_eq_true]
  intro c hc
  have := toDigitsCore_noNL (n + 1) n [] (by simp) c hc
  simpa using this

theorem intToString_noNL (n : Int) : noNL (toString n) := by
  show noNL (Int.repr n)
  cases n with
  | ofNat m => exact natRepr_noNL m
  | negSucc m => exact noNL_append (by decide) (natRepr_noNL (m + 1))

theorem hexDigit_ne_newline (n : Nat) (h : n ≤ 15) : hexDigit n ≠ '\x0a' := by
  unfold hexDigit
  interval_cases n <;> decide

theorem escChar_noNL (c : Char) : noNL (escChar c) := by
  unfold escChar
  split_ifs with h1 h2 h3 h4 h5 h6
  · decide
  · decide
  · decide
  · decide
  · decide
  · refine noNL_append (by decide) ?_
    simp only [noNL, String.mk, List.all_cons, List.all_nil, Bool.and_true,
      Bool.and_eq_true, bne_iff_ne, ne_eq]
    exact ⟨hexDigit_ne_newline _ (by omega), hexDigit_ne_newline _ (by omega)⟩
  · simp only [noNL, String.singleton, String.push, String.data,
      List.all_append, List.all_cons, List.all_nil, Bool.and_true,
      Bool.true_and, bne_iff_ne, ne_eq]
    simpa using h3

theorem joinFold_noNL (l : List String) (a : String) (ha : noNL a)
    (hl : ∀ x ∈ l, noNL x) : noNL (l.foldl (· ++ ·) a) := by
  induction l generalizing a with
  | nil => simpa using ha
  | cons x xs ih =>
    simp only [List.foldl]
    exact ih _ (noNL_append ha (hl x (by simp))) (fun y hy => hl y (by simp [hy]))

theorem escString_noNL (s : String) : noNL (escString s) := by
  unfold escString String.join
  apply joinFold_noNL _ _ (by decide)
  intro x hx
  rcases List.mem_map.mp hx with ⟨c, _, rfl⟩
  exact escChar_noNL c

mutual

theorem jsonDumps_noNL : (v : JVal) → noNL (jsonDumps v)
  | .null => by decide
  | .bool true => by decide
  | .bool false => by decide
  | .num n => by
    simp only [jsonDumps]
    exact intToString_noNL n
  | .str s => by
    simp only [jsonDumps]
    exact noNL_append (noNL_append (by decide) (escString_noNL s)) (by decide)
  | .arr xs => by
    simp only [jsonDumps]
    exact noNL_append (noNL_append (by decide) (jsonDumpsList_noNL xs))
      (by decide)
  | .obj kvs => by
    simp only [jsonDumps]
    exact noNL_append (noNL_append (by decide) (jsonDumpsObj_noNL kvs))
      (by decide)

theorem jsonDumpsList_noNL : (xs : List JVal) → noNL (jsonDumpsList xs)
  | [] => by decide
  | [x] => by
    simp only [jsonDumpsList]
    exact jsonDumps_noNL x
  | x :: y :: xs => by
    simp only [jsonDumpsList]
    exact noNL_append (noNL_append (jsonDumps_noNL x) (by decide))
      (jsonDumpsList_noNL (y :: xs))

theorem jsonDumpsObj_noNL :
    (kvs : List (String × JVal)) → noNL (jsonDumpsObj kvs)
  | [] => by decide
  | [(k, v)] => by
    simp only [jsonDumpsObj]
    exact noNL_append (noNL_append (noNL_append (by decide)
      (escString_noNL k)) (by decide)) (jsonDumps_noNL v)
  | (k, v) :: p :: kvs => by
    simp only [jsonDumpsObj]
    exact noNL_append (noNL_append (noNL_append (noNL_append (noNL_append
      (by decide) (escString_noNL k)) (by decide)) (jsonDumps_noNL v))
      (by decide)) (jsonDumpsObj_noNL (p :: kvs))

end

theorem jLookup_dictSet_self (o : JObj) (k : String) (v : JVal) :
    jLookup (dictSet o k v) k = some v := by
  induction o with
  | nil => simp [dictSet, jLookup]
  | cons p rest ih =>
    obtain ⟨k2, v2⟩ := p
    by_cases h : k2 = k
    · simp [dictSet, jLookup, h]
    · simp [dictSet, jLookup, h, ih]

theorem jLookup_dictSet_ne (o : JObj) (k k2 : String) (v : JVal)
    (h : k ≠ k2) : jLookup (dictSet o k v) k2 = jLookup o k2 := by
  induction o with
  | nil => simp [dictSet, jLookup, h]
  | cons p rest ih =>
    obtain ⟨k3, v3⟩ := p
    by_cases h3 : k3 = k
    · subst h3
      simp [dictSet, jLookup, h]
    · simp [dictSet, jLookup, h3, ih]

theorem jLookup_optStep_ne (params acc : JObj) (k k2 : String) (h : k ≠ k2) :
    jLookup (StdioClient.optStep params acc k) k2 = jLookup acc k2 := by
  unfold StdioClient.optStep
  split
  · exact jLookup_dictSet_ne acc k k2 _ h
  · rfl

theorem jLookup_advStep_ne (params acc : JObj) (op k2 : String)
    (h : op ≠ k2) :
    jLookup (StdioClient.advStep params acc op) k2 = jLookup acc k2 := by
  unfold StdioClient.advStep
  split
  · exact jLookup_dictSet_ne acc op k2 _ h
  · rfl

theorem jLookup_advFold_ne (ops : List String) (params acc : JObj)
    (k2 : String) (h : k2 ∉ ops) :
    jLookup (ops.foldl (StdioClient.advStep params) acc) k2
      = jLookup acc k2 := by
  induction ops generalizing acc with
  | nil => rfl
  | cons op ops ih =>
    simp only [List.foldl]
    rw [ih _ (fun hm => h (List.mem_cons_of_mem _ hm)),
      jLookup_advStep_ne params acc op k2
        (fun he => h (he ▸ List.mem_cons_self op ops))]

theorem regLookup_dictSet_self (reg : SSE.Registry) (k : String)
    (t : SSE.Transport) : SSE.regLookup (dictSet reg k t) k = some t := by
  induction reg with
  | nil => simp [dictSet, SSE.regLookup]
  | cons p rest ih =>
    obtain ⟨k2, t2⟩ := p
    by_cases h : k2 = k
    · simp [dictSet, SSE.regLookup, h]
    · simp [dictSet, SSE.regLookup, h, ih]

theorem registryInv_dictSet {reg : SSE.Registry} {k : String}
    {t : SSE.Transport} (hinv : SSE.registryInv reg) (ht : t.sessionId = k) :
    SSE.registryInv (dictSet reg k t) := by
  induction reg with
  | nil =>
    intro p hp
    simp [dictSet] at hp
    subst hp
    exact ht
  | cons q rest ih =>
    obtain ⟨k2, t2⟩ := q
    intro p hp
    by_cases h : k2 = k
    · simp [dictSet, h] at hp
      rcases hp with hp | hp
      · subst hp
        simpa [h] using ht
      · exact hinv p (List.mem_cons_of_mem _ hp)
    · simp only [dictSet, if_neg h] at hp
      rcases List.mem_cons.mp hp with hp | hp
      · exact hinv p (hp ▸ List.mem_cons_self _ _)
      · exact ih (fun q hq => hinv q (List.mem_cons_of_mem _ hq)) p hp

theorem registryInv_filter {reg : SSE.Registry}
    (hinv : SSE.registryInv reg) (f : String × SSE.Transport → Bool) :
    SSE.registryInv (reg.filter f) := by
  intro p hp
  exact hinv p (List.mem_of_mem_filter hp)

theorem invokeTool_registry (sid : String) (query : String)
    (parameters : JObj) (searchFn : JObj → Except String JVal)
    (scrapeFn : JVal → JVal → Except String JVal) (reg : SSE.Registry) :
    (SSE.invokeTool sid query parameters searchFn scrapeFn reg).registry
      = reg := by
  unfold SSE.invokeTool
  repeat' split
  all_goals rfl

theorem messagesEndpoint_registry (reg : SSE.Registry)
    (header : Option String) (message : JObj)
    (searchFn : JObj → Except String JVal)
    (scrapeFn : JVal → JVal → Except String JVal) :
    (SSE.messagesEndpoint reg header message searchFn scrapeFn).registry
      = reg := by
  unfold SSE.messagesEndpoint
  dsimp only
  repeat' split
  all_goals first | rfl | apply invokeTool_registry

/-! ## Claim theorems -/

/-- C1: every operation of the `mcp-server-python` `SerperClient` returns
the parsed JSON response body on upstream success, and otherwise either
raises or returns an error dict — `search` and `scrape` raise (modelled as
`Except.error`) on every non-success HTTP status, every transport failure
and every undecodable body, never returning a partial result, while
`health` never raises (it is a total function into JSON dicts) and on every
such failure returns a dict with `"status"` set to `"error"` and a
`"message"` field describing the failure. -/
theorem C1_client_outcomes (st : Nat) (j : JVal) (m : String) :
    (SerperPy.isSuccessStatus st = true →
      SerperPy.search (.response st (some j)) = .ok j ∧
      SerperPy.scrape (.response st (some j)) = .ok j ∧
      SerperPy.health (.response st (some j)) = j) ∧
    (SerperPy.isSuccessStatus st = false →
      (∃ e, SerperPy.search (.response st (some j)) = .error e) ∧
      (∃ e, SerperPy.scrape (.response st (some j)) = .error e) ∧
      (∃ msg, SerperPy.health (.response st (some j))
        = SerperPy.healthErrorDict msg)) ∧
    (SerperPy.search (.transportError m) = .error m ∧
     SerperPy.scrape (.transportError m) = .error m ∧
     SerperPy.health (.transportError m) = SerperPy.healthErrorDict m) ∧
    ((∃ e, SerperPy.search (.response st none) = .error e) ∧
     (∃ e, SerperPy.scrape (.response st none) = .error e) ∧
     (∃ msg, SerperPy.health (.response st none)
        = SerperPy.healthErrorDict msg)) := by
  refine ⟨fun h => ?_, fun h => ?_, ⟨rfl, rfl, rfl⟩, ?_⟩
  · simp [SerperPy.search, SerperPy.scrape, SerperPy.health, h]
  · simp [SerperPy.search, SerperPy.scrape, SerperPy.health, h]
  · by_cases h : SerperPy.isSuccessStatus st = true <;>
      simp [SerperPy.search, SerperPy.scrape, SerperPy.health, h]

/-- Witness for C1 at concrete outcomes: a 200 response with body, a 500
response, and a transport failure. -/
theorem C1_client_outcomes_witness :
    SerperPy.search (.response 200 (some (.str "ok"))) = .ok (.str "ok") ∧
    (∃ e, SerperPy.search (.response 500 (some (.str "body"))) = .error e) ∧
    SerperPy.health (.transportError "connection refused")
      = SerperPy.healthErrorDict "connection refused" := by
  refine ⟨?_, ?_, ?_⟩
  · exact ((C1_client_outcomes 200 (.str "ok") "").1 (by decide)).1
  · exact ((C1_client_outcomes 500 (.str "body") "").2.1 (by decide)).1
  · exact (C1_client_outcomes 0 .null "connection refused").2.2.1.2.2

/-- C8: every HTTP request issued by a default-constructed stdio-variant
`SerperClient` — through `_make_request` with any method/endpoint/payload,
and in particular by `search`, `scrape`, `health`, `analyze_serp`,
`research_keywords`, `analyze_competitors` and `autocomplete` — targets the
single host `google.serper.dev` (the default `base_url`), and the
SSE-variant client builds each request URL from the constant
`SERPER_API_URL = "https://google.serper.dev"`. -/
theorem C8_fixed_upstream_host (k : String) (params : JObj)
    (queryList : List JVal) (method endpoint : String)
    (payload : Option JVal) :
    (StdioClient.makeRequest (StdioClient.mkClient k) method endpoint
        payload).host = "google.serper.dev" ∧
    (StdioClient.searchRequest (StdioClient.mkClient k) params).host
      = "google.serper.dev" ∧
    (StdioClient.scrapeRequest (StdioClient.mkClient k) params).host
      = "google.serper.dev" ∧
    (StdioClient.healthRequest (StdioClient.mkClient k)).host
      = "google.serper.dev" ∧
    (StdioClient.analyzeSerpRequest (StdioClient.mkClient k) params).host
      = "google.serper.dev" ∧
    (StdioClient.researchKeywordsRequest (StdioClient.mkClient k)
        params).host = "google.serper.dev" ∧
    (StdioClient.analyzeCompetitorsRequest (StdioClient.mkClient k)
        params).host = "google.serper.dev" ∧
    (StdioClient.autocompleteRequest (StdioClient.mkClient k)
        queryList).host = "google.serper.dev" ∧
    SerperPy.SERPER_API_URL = "https://google.serper.dev" ∧
    SerperPy.searchUrl = SerperPy.SERPER_API_URL ++ "/search" ∧
    SerperPy.scrapeUrl = SerperPy.SERPER_API_URL ++ "/scrape" ∧
    SerperPy.healthUrl = SerperPy.SERPER_API_URL ++ "/_health" ∧
    List.IsPrefix "https://google.serper.dev".data SerperPy.searchUrl.data ∧
    List.IsPrefix "https://google.serper.dev".data SerperPy.scrapeUrl.data ∧
    List.IsPrefix "https://google.serper.dev".data SerperPy.healthUrl.data := by
  refine ⟨rfl, rfl, rfl, rfl, rfl, rfl, rfl, rfl, rfl, rfl, rfl, rfl,
    ?_, ?_, ?_⟩ <;> exact ⟨_, rfl⟩

/-- C2 counterexample: with `q` (and every other argument) missing — the
empty params dict — `SerperSearchTools.search` neither supplies a default
nor rejects the call before the client is invoked: the client runs and
receives the unchanged empty dict (an echo client observes exactly `[]`),
refuting the claimed pre-client validation/defaulting. -/
theorem C2_counterexample :
    Facade.search (fun p => .ok (.obj p)) [] = .ok (.obj []) := rfl

/-- C2 (amended): every `SerperSearchTools` method passes its arguments
through to the corresponding `SerperClient` method and returns exactly the
client's result whenever the client succeeds.  The methods with a
`try/except` (`search`, `scrape`, `health`, `image_search`, `news_search`
and their siblings) re-raise a client exception wrapped in a `SearchTool:`
message, while `video_search`, `youtube_search` and `instagram_search` are
bare delegations that return the client's outcome — exceptions included —
unchanged.  The façade performs no argument validation and supplies no
defaults before invoking the client; search's defaults (`gl="us"`,
`hl="en"`, `autocorrect=True`) are applied inside `SerperClient.search`'s
payload.  The one exception is `autocomplete`, which itself defaults
`gl`/`hl`/`location`, rejects a falsy `queries` before any client call,
and otherwise iterates `queries` — per element for a list, per character
for a string — into the query list it hands the client. -/
theorem C2_facade_passthrough (client : JObj → Except String JVal)
    (vclient : JVal → JVal → JVal → JVal → JVal → Except String JVal)
    (yclient iclient :
      JVal → JVal → JVal → JVal → JVal → JVal → Except String JVal)
    (aclient : List JVal → Except String JVal) (params : JObj)
    (query location gl hl num tbs : JVal) (qs : List JVal) (s : String) :
    (∀ r, client params = .ok r →
      Facade.search client params = .ok r ∧
      Facade.scrape client params = .ok r ∧
      Facade.health client params = .ok r ∧
      Facade.imageSearch client params = .ok r ∧
      Facade.newsSearch client params = .ok r) ∧
    (∀ e, client params = .error e →
      Facade.search client params
        = .error ("SearchTool: failed to search for \x27"
            ++ pyStr (jGetD params "q" .null) ++ "\x27. " ++ e) ∧
      Facade.scrape client params
        = .error ("SearchTool: failed to scrape. " ++ e)) ∧
    (Facade.videoSearch vclient query location gl hl num
        = vclient query location gl hl num ∧
     Facade.youtubeSearch yclient query location gl hl num tbs
        = yclient query location gl hl num tbs ∧
     Facade.instagramSearch iclient query location gl hl num tbs
        = iclient query location gl hl num tbs) ∧
    (jLookup (StdioClient.searchPayload params) "gl"
        = some (jGetD params "gl" (.str "us")) ∧
     jLookup (StdioClient.searchPayload params) "hl"
        = some (jGetD params "hl" (.str "en")) ∧
     jLookup (StdioClient.searchPayload params) "autocorrect"
        = some (jGetD params "autocorrect" (.bool true))) ∧
    (jTruthy (jGetD params "queries" (.arr [])) = false →
      Facade.autocomplete aclient params
        = .error ("SearchTool: failed to get autocomplete suggestions. "
            ++ "No queries provided for autocomplete")) ∧
    (jGetD params "queries" (.arr []) = .arr qs → qs ≠ [] →
      ∀ r, aclient (Facade.queryItems qs (jGetD params "gl" (.str "us"))
          (jGetD params "hl" (.str "en"))
          (jGetD params "location" (.str ""))) = .ok r →
        Facade.autocomplete aclient params = .ok r) ∧
    (jGetD params "queries" (.arr []) = .str s → s ≠ "" →
      ∀ r, aclient (Facade.queryItems
          (s.data.map (fun c => JVal.str (String.singleton c)))
          (jGetD params "gl" (.str "us")) (jGetD params "hl" (.str "en"))
          (jGetD params "location" (.str ""))) = .ok r →
        Facade.autocomplete aclient params = .ok r) := by
  refine ⟨fun r h => ?_, fun e h => ?_, ⟨rfl, rfl, rfl⟩, ⟨?_, ?_, ?_⟩,
    fun h => ?_, fun hq hne r hr => ?_, fun hq hne r hr => ?_⟩
  · simp [Facade.search, Facade.scrape, Facade.health, Facade.imageSearch,
      Facade.newsSearch, h]
  · simp [Facade.search, Facade.scrape, h]
  · unfold StdioClient.searchPayload
    rw [jLookup_advFold_ne _ _ _ _ (by decide),
      jLookup_optStep_ne _ _ _ _ (by decide),
      jLookup_optStep_ne _ _ _ _ (by decide),
      jLookup_optStep_ne _ _ _ _ (by decide)]
    simp [jLookup]
  · unfold StdioClient.searchPayload
    rw [jLookup_advFold_ne _ _ _ _ (by decide),
      jLookup_optStep_ne _ _ _ _ (by decide),
      jLookup_optStep_ne _ _ _ _ (by decide),
      jLookup_optStep_ne _ _ _ _ (by decide)]
    simp [jLookup]
  · unfold StdioClient.searchPayload
    rw [jLookup_advFold_ne _ _ _ _ (by decide),
      jLookup_optStep_ne _ _ _ _ (by decide),
      jLookup_optStep_ne _ _ _ _ (by decide),
      jLookup_optStep_ne _ _ _ _ (by decide)]
    simp [jLookup]
  · simp [Facade.autocomplete, h]
  · have ht : jTruthy (JVal.arr qs) = true := by
      simpa [jTruthy, List.isEmpty_iff] using hne
    simp [Facade.autocomplete, hq, ht, Facade.pyIter, hr]
  · have ht : jTruthy (JVal.str s) = true := by
      simpa [jTruthy] using hne
    simp [Facade.autocomplete, hq, ht, Facade.pyIter, hr]

/-- Witness for C2 (amended): a concrete successful pass-through, a
concrete pre-client rejection by `autocomplete`, an unwrapped error
propagated by `video_search`, and a string-valued `queries` iterated per
character into the client call. -/
theorem C2_facade_passthrough_witness :
    Facade.search (fun _ => .ok (.str "R")) [("q", .str "x")]
      = .ok (.str "R") ∧
    Facade.autocomplete (fun _ => .ok .null) []
      = .error ("SearchTool: failed to get autocomplete suggestions. "
          ++ "No queries provided for autocomplete") ∧
    Facade.videoSearch (fun _ _ _ _ _ => .error "boom")
      .null .null .null .null .null = .error "boom" ∧
    Facade.autocomplete (fun ql => .ok (.arr ql))
        [("queries", .str "ab")]
      = .ok (.arr (Facade.queryItems [.str "a", .str "b"]
          (.str "us") (.str "en") (.str ""))) := by
  refine ⟨?_, ?_, ?_, ?_⟩
  · exact ((C2_facade_passthrough (fun _ => .ok (.str "R"))
      (fun _ _ _ _ _ => .ok .null) (fun _ _ _ _ _ _ => .ok .null)
      (fun _ _ _ _ _ _ => .ok .null) (fun _ => .ok .null)
      [("q", .str "x")] .null .null .null .null .null .null [] "").1
      (.str "R") rfl).1
  · exact (C2_facade_passthrough (fun _ => .ok (.str "R"))
      (fun _ _ _ _ _ => .ok .null) (fun _ _ _ _ _ _ => .ok .null)
      (fun _ _ _ _ _ _ => .ok .null) (fun _ => .ok .null)
      [] .null .null .null .null .null .null [] "").2.2.2.2.1 rfl
  · exact (C2_facade_passthrough (fun _ => .ok .null)
      (fun _ _ _ _ _ => .error "boom") (fun _ _ _ _ _ _ => .ok .null)
      (fun _ _ _ _ _ _ => .ok .null) (fun _ => .ok .null)
      [] .null .null .null .null .null .null [] "").2.2.1.1
  · exact (C2_facade_passthrough (fun _ => .ok .null)
      (fun _ _ _ _ _ => .ok .null) (fun _ _ _ _ _ _ => .ok .null)
      (fun _ _ _ _ _ _ => .ok .null) (fun ql => .ok (.arr ql))
      [("queries", .str "ab")] .null .null .null .null .null .null []
      "ab").2.2.2.2.2.2 rfl (by decide) _ rfl

/-- C4: the `transports` registry of `MCPServerApp` keeps the invariant that
every stored transport carries the key it is stored under as its
`session_id`: it holds for the initial empty dict and is preserved by `/sse`
registration, by `/messages` handling (which never writes the registry), by
the disconnect cleanup, and by `shutdown`. -/
theorem C4_registry_invariant :
    SSE.registryInv [] ∧
    (∀ reg header freshId, SSE.registryInv reg →
      SSE.registryInv (SSE.sseConnect reg header freshId).1) ∧
    (∀ reg header message searchFn scrapeFn, SSE.registryInv reg →
      (SSE.messagesEndpoint reg header message searchFn scrapeFn).registry
        = reg ∧
      SSE.registryInv
        (SSE.messagesEndpoint reg header message searchFn scrapeFn).registry) ∧
    (∀ reg sid, SSE.registryInv reg →
      SSE.registryInv (SSE.sseDisconnect reg sid)) ∧
    (∀ reg, SSE.registryInv (SSE.shutdownRegistry reg)) := by
  refine ⟨?_, ?_, ?_, ?_, ?_⟩
  · intro p hp
    simp at hp
  · intro reg header freshId hinv
    unfold SSE.sseConnect
    exact registryInv_dictSet hinv rfl
  · intro reg header message searchFn scrapeFn hinv
    refine ⟨messagesEndpoint_registry _ _ _ _ _, ?_⟩
    rw [messagesEndpoint_registry]
    exact hinv
  · intro reg sid hinv
    unfold SSE.sseDisconnect
    split
    · exact registryInv_filter hinv _
    · exact hinv
  · intro reg p hp
    simp [SSE.shutdownRegistry] at hp

/-- Witness for C4 at a concrete trace: register a session into the empty
registry, handle a message, then disconnect. -/
theorem C4_registry_invariant_witness :
    SSE.registryInv ((SSE.sseConnect [] (some "abc") "u1").1) ∧
    SSE.registryInv (SSE.sseDisconnect
      ((SSE.sseConnect [] (some "abc") "u1").1) "abc") := by
  have h0 : SSE.registryInv [] := C4_registry_invariant.1
  have h1 := C4_registry_invariant.2.1 [] (some "abc") "u1" h0
  exact ⟨h1, C4_registry_invariant.2.2.2.1 _ "abc" h1⟩

/-- C7 counterexample: with the `X-MCP-Session-ID` header present but equal
to the empty string, `sse_endpoint` assigns the freshly generated uuid, not
the header-supplied id, because the header is tested for truthiness rather
than presence. -/
theorem C7_counterexample :
    (SSE.sseConnect [] (some "")
        "3f2504e0-4f89-11d3-9a0c-0305e82c3301").2
      = "3f2504e0-4f89-11d3-9a0c-0305e82c3301" ∧
    ("3f2504e0-4f89-11d3-9a0c-0305e82c3301" : String) ≠ "" := by
  exact ⟨rfl, by decide⟩

/-- C7 (amended): on every `/sse` connection the assigned session id is the
header-supplied id when it is present *and non-empty*, otherwise a freshly
generated uuid; the transport stored under that id carries exactly the
three tools `google_search`, `scrape`, `_health` in that order, and the
first event its stream generator emits is a `connected` event whose data is
`json.dumps` of the assigned session id. -/
theorem C7_first_event_and_tools (reg : SSE.Registry)
    (header : Option String) (freshId s : String) (n : Nat)
    (t : SSE.Transport) :
    (header = none → (SSE.sseConnect reg header freshId).2 = freshId) ∧
    (header = some "" → (SSE.sseConnect reg header freshId).2 = freshId) ∧
    (header = some s → s ≠ "" → (SSE.sseConnect reg header freshId).2 = s) ∧
    (SSE.regLookup (SSE.sseConnect reg header freshId).1
        (SSE.sseConnect reg header freshId).2 = some t →
      t.tools.map SSE.toolName
        = [some (.str "google_search"), some (.str "scrape"),
           some (.str "_health")] ∧
      t.sessionId = (SSE.sseConnect reg header freshId).2 ∧
      (SSE.streamGen t n).head? = some
        { event := "connected",
          data := jsonDumps (.obj [("sessionId",
            .str (SSE.sseConnect reg header freshId).2)]) }) := by
  refine ⟨fun h => ?_, fun h => ?_, fun h hs => ?_, fun h => ?_⟩
  · subst h
    rfl
  · subst h
    rfl
  · subst h
    simp [SSE.sseConnect, hs]
  · unfold SSE.sseConnect at h ⊢
    rw [regLookup_dictSet_self] at h
    injection h with h
    subst h
    exact ⟨rfl, rfl, rfl⟩

/-- Witness for C7 (amended) at a concrete connection: header `"abc"`,
fresh uuid `"u1"`. -/
theorem C7_first_event_and_tools_witness :
    (SSE.sseConnect [] (some "abc") "u1").2 = "abc" ∧
    (SSE.registerToolsForTransport ⟨"abc", []⟩).tools.map SSE.toolName
      = [some (.str "google_search"), some (.str "scrape"),
         some (.str "_health")] ∧
    (SSE.streamGen (SSE.registerToolsForTransport ⟨"abc", []⟩) 0).head?
      = some { event := "connected",
               data := jsonDumps (.obj [("sessionId", .str "abc")]) } := by
  have h := C7_first_event_and_tools [] (some "abc") "u1" "abc" 0
    (SSE.registerToolsForTransport ⟨"abc", []⟩)
  have hl := h.2.2.2 rfl
  exact ⟨h.2.2.1 rfl (by decide), hl.1, hl.2.2⟩

/-- C10 counterexample: with `MCP_TOKEN` set to the empty string, a request
without any `Authorization` header to a non-health path is passed through
rather than rejected with 401, because the middleware tests the token for
truthiness, not for being set. -/
theorem C10_counterexample :
    SSE.authMiddleware (some "") "/messages" none
      = SSE.AuthDecision.forward := rfl

/-- C10 (amended): when `config.MCP_TOKEN` is set *to a non-empty value*,
the middleware rejects every request whose path is not `/_health` with 401
when the `Authorization` header is absent or is not exactly two
whitespace-separated parts with first part `bearer` case-insensitively, and
with 403 when the second part differs from the token; `/_health` requests,
and all requests when the token is unset or empty, pass through. -/
theorem C10_auth_statuses (t path : String) (h : Option String)
    (s p0 p1 : String) :
    (t ≠ "" → path ≠ "/_health" →
      (SSE.authMiddleware (some t) path none
        = .reject 401 "Sem token de autenticação") ∧
      (((SSE.splitWS s).length ≠ 2 ∨
          strLower ((SSE.splitWS s).headD "") ≠ "bearer") →
        ∃ msg, SSE.authMiddleware (some t) path (some s)
          = .reject 401 msg) ∧
      (SSE.splitWS s = [p0, p1] → strLower p0 = "bearer" → p1 ≠ t →
        SSE.authMiddleware (some t) path (some s)
          = .reject 403 "Token inválido")) ∧
    (SSE.authMiddleware (some t) "/_health" h = .forward) ∧
    (SSE.authMiddleware none path h = .forward) ∧
    (SSE.authMiddleware (some "") path h = .forward) := by
  refine ⟨fun ht hp => ⟨?_, fun hmal => ?_, fun hsp hb hp1 => ?_⟩, ?_, ?_, ?_⟩
  · simp [SSE.authMiddleware, jOptTruthy, jTruthy, ht, hp]
  · by_cases hs : s = ""
    · subst hs
      exact ⟨"Sem token de autenticação",
        by simp [SSE.authMiddleware, jOptTruthy, jTruthy, ht, hp]⟩
    · refine ⟨"Formato de autenticação inválido", ?_⟩
      have hcond : SSE.malformedAuth (SSE.splitWS s) = true := by
        simp only [SSE.malformedAuth, Bool.or_eq_true, decide_eq_true_eq,
          ne_eq]
        rcases hmal with hm | hm
        · exact Or.inl hm
        · right
          simpa using hm
      simp [SSE.authMiddleware, jOptTruthy, jTruthy, ht, hp, hs, hcond]
  · have hs : s ≠ "" := by
      intro he
      subst he
      simp [show SSE.splitWS "" = [] from rfl] at hsp
    have hcond : SSE.malformedAuth [p0, p1] = false := by
      simp [SSE.malformedAuth, hb]
    simp [SSE.authMiddleware, jOptTruthy, jTruthy, ht, hp, hs, hcond, hsp,
      hp1]
  · by_cases ht : jTruthy (.str t) = true <;>
      simp [SSE.authMiddleware, jOptTruthy, ht]
  · rfl
  · rfl

/-- Witness for C10 (amended) at concrete requests: no header, a malformed
header, a wrong bearer token, the health path, and an unset token. -/
theorem C10_auth_statuses_witness :
    SSE.authMiddleware (some "tok") "/messages" none
      = SSE.AuthDecision.reject 401 "Sem token de autenticação" ∧
    (∃ msg, SSE.authMiddleware (some "tok") "/messages" (some "Basic abc")
      = SSE.AuthDecision.reject 401 msg) ∧
    SSE.authMiddleware (some "tok") "/messages" (some "Bearer wrong")
      = SSE.AuthDecision.reject 403 "Token inválido" ∧
    SSE.authMiddleware (some "tok") "/_health" none
      = SSE.AuthDecision.forward ∧
    SSE.authMiddleware none "/messages" none = SSE.AuthDecision.forward := by
  have h1 := C10_auth_statuses "tok" "/messages" none "Basic abc" "" ""
  have h2 := C10_auth_statuses "tok" "/messages" none "Bearer wrong"
    "Bearer" "wrong"
  refine ⟨(h1.1 (by decide) (by decide)).1, ?_, ?_, h1.2.1, h1.2.2.1⟩
  · exact (h1.1 (by decide) (by decide)).2.1 (Or.inr (by decide))
  · exact (h2.1 (by decide) (by decide)).2.2 (by decide) (by decide)
      (by decide)

/-- C9 counterexample: the message `{"method": "", "id": 5}` *contains* a
`"method"` key, yet `handle_message` returns the generic no-method error
response, which carries no `"id"` field at all — the code tests the method
for truthiness, not for key presence. -/
theorem C9_counterexample :
    jHasKey [("method", JVal.str ""), ("id", JVal.num 5)] "method" = true ∧
    Stdio.handleMessage (fun _ _ => .ok .null)
        [("method", .str ""), ("id", .num 5)]
      = [("error", .obj [("message", .str "Nenhum método especificado")])] ∧
    jHasKey (Stdio.handleMessage (fun _ _ => .ok .null)
        [("method", .str ""), ("id", .num 5)]) "id" = false := by
  exact ⟨rfl, rfl, rfl⟩

/-- C9 (amended): for every message whose `"method"` value is truthy, the
stdio `handle_message` response carries an `"id"` equal to the message's
id (`None`/null when the message has no id); when `"method"` is missing *or
falsy*, the response is the fixed no-method error object with no `"id"`
field at all. -/
theorem C9_id_handling (tools : String → JObj → Except String JVal)
    (message : JObj) :
    (jOptTruthy (jLookup message "method") = true →
      jLookup (Stdio.handleMessage tools message) "id"
        = some (jGetD message "id" .null)) ∧
    (jOptTruthy (jLookup message "method") = false →
      Stdio.handleMessage tools message
        = [("error",
            .obj [("message", .str "Nenhum método especificado")])] ∧
      jHasKey (Stdio.handleMessage tools message) "id" = false) := by
  constructor
  · intro h
    unfold Stdio.handleMessage
    simp only [h, Bool.not_true, Bool.false_eq_true, if_false]
    repeat' split
    all_goals
      simp [jLookup, Stdio.contentResponse, Stdio.exceptionResponse]
  · intro h
    unfold Stdio.handleMessage
    simp [h, jHasKey, jLookup]

/-- Witness for C9 (amended): a truthy-method message with an id, and a
message with no method key. -/
theorem C9_id_handling_witness :
    jLookup (Stdio.handleMessage (fun _ _ => .ok .null)
        [("method", .str "mcp.ListTools"), ("id", .num 7)]) "id"
      = some (.num 7) ∧
    jHasKey (Stdio.handleMessage (fun _ _ => .ok .null) [("q", .str "x")])
      "id" = false := by
  constructor
  · exact (C9_id_handling (fun _ _ => .ok .null)
      [("method", .str "mcp.ListTools"), ("id", .num 7)]).1 rfl
  · exact ((C9_id_handling (fun _ _ => .ok .null) [("q", .str "x")]).2
      rfl).2

theorem jIsStr_eq {v : JVal} {s : String} (h : jIsStr v s = true) :
    v = .str s := by
  cases v with
  | str t =>
    simp [jIsStr] at h
    subst h
    rfl
  | null => simp [jIsStr] at h
  | bool b => simp [jIsStr] at h
  | num n => simp [jIsStr] at h
  | arr xs => simp [jIsStr] at h
  | obj kvs => simp [jIsStr] at h

theorem jOptTruthy_of_getD_str {o : JObj} {k s : String}
    (h : jGetD o k .null = .str s) (hs : s ≠ "") :
    jOptTruthy (jLookup o k) = true := by
  unfold jGetD at h
  cases hl : jLookup o k with
  | none =>
    rw [hl] at h
    simp at h
  | some v =>
    rw [hl] at h
    simp at h
    subst h
    simp [jOptTruthy, jTruthy, hs]

/-- C5: the stdio `handle_message` dispatch — `mcp.ListTools` answers with
the full `tools_definitions` table under `result.tools`; `mcp.CallTool`
with a tool name in the dispatch table invokes the corresponding
`SerperSearchTools` method on the message's `arguments` and returns its
result JSON-serialized as the single text item of `result.content`; an
unknown tool name, and any unrecognized method, get a response carrying an
`error` object instead of a `result`; and `main` writes each response to
standard output as `json.dumps(response) + "\n"` — one line, since the
serialization never contains a newline — while skipping unparsable input
lines. -/
theorem C5_stdio_dispatch (tools : String → JObj → Except String JVal)
    (message : JObj) (params args : JObj) (n : String) (r : JVal) :
    (jIsStr (jGetD message "method" .null) "mcp.ListTools" = true →
      Stdio.handleMessage tools message =
        [("id", jGetD message "id" .null),
         ("result", .obj [("tools", Stdio.toolsDefinitions)])]) ∧
    (jIsStr (jGetD message "method" .null) "mcp.CallTool" = true →
      jGetD message "params" (.obj []) = .obj params →
      jGetD params "name" .null = .str n →
      jGetD params "arguments" (.obj []) = .obj args →
      ((n ∈ Stdio.dispatchNames → tools n args = .ok r →
        Stdio.handleMessage tools message
          = Stdio.contentResponse (jGetD message "id" .null) r) ∧
       (n ∉ Stdio.dispatchNames →
        Stdio.handleMessage tools message =
          [("id", jGetD message "id" .null),
           ("error", .obj [("message",
             .str ("Ferramenta desconhecida: " ++ n))])]))) ∧
    (jOptTruthy (jLookup message "method") = true →
      jIsStr (jGetD message "method" .null) "mcp.ListTools" = false →
      jIsStr (jGetD message "method" .null) "mcp.CallTool" = false →
      Stdio.handleMessage tools message =
        [("id", jGetD message "id" .null),
         ("error", .obj [("message",
           .str ("Método não implementado: "
             ++ pyStr (jGetD message "method" .null)))])]) ∧
    Stdio.contentResponse (jGetD message "id" .null) r =
      [("id", jGetD message "id" .null),
       ("result", .obj [("content", .arr [.obj [("type", .str "text"),
         ("text", .str (jsonDumps r))]])])] ∧
    Stdio.mainLoop tools [some message]
      = [jsonDumps (.obj (Stdio.handleMessage tools message)) ++ "\x0a"] ∧
    Stdio.mainLoop tools [none] = [] ∧
    noNL (jsonDumps (.obj (Stdio.handleMessage tools message))) = true := by
  refine ⟨fun h => ?_, fun h hp hn ha => ⟨fun hmem hok => ?_,
    fun hmem => ?_⟩, fun hT h1 h2 => ?_, rfl, rfl, rfl,
    jsonDumps_noNL _⟩
  · have hgate := jOptTruthy_of_getD_str (jIsStr_eq h) (by decide)
    unfold Stdio.handleMessage
    simp [hgate, h]
  · have hm := jIsStr_eq h
    have hgate := jOptTruthy_of_getD_str hm (by decide)
    unfold Stdio.handleMessage
    simp [hgate, hm, jIsStr, hp, hn, ha, hmem, hok]
  · have hm := jIsStr_eq h
    have hgate := jOptTruthy_of_getD_str hm (by decide)
    unfold Stdio.handleMessage
    simp [hgate, hm, jIsStr, hp, hn, ha, hmem]
  · unfold Stdio.handleMessage
    simp [hT, h1, h2]

/-- Witness for C5 at concrete messages: a ListTools request, a CallTool
request on a dispatched tool, and a CallTool request on an unknown tool. -/
theorem C5_stdio_dispatch_witness :
    Stdio.handleMessage (fun _ _ => .ok (.str "R"))
        [("method", .str "mcp.ListTools"), ("id", .num 1)]
      = [("id", .num 1),
         ("result", .obj [("tools", Stdio.toolsDefinitions)])] ∧
    Stdio.handleMessage (fun _ _ => .ok (.str "R"))
        [("method", .str "mcp.CallTool"), ("id", .num 2),
         ("params", .obj [("name", .str "google_search"),
           ("arguments", .obj [("q", .str "ai")])])]
      = Stdio.contentResponse (.num 2) (.str "R") ∧
    Stdio.handleMessage (fun _ _ => .ok (.str "R"))
        [("method", .str "mcp.CallTool"), ("id", .num 3),
         ("params", .obj [("name", .str "nope")])]
      = [("id", .num 3), ("error", .obj [("message",
          .str ("Ferramenta desconhecida: " ++ "nope"))])] := by
  refine ⟨?_, ?_, ?_⟩
  · exact (C5_stdio_dispatch (fun _ _ => .ok (.str "R"))
      [("method", .str "mcp.ListTools"), ("id", .num 1)] [] [] "x" .null).1
      rfl
  · exact ((C5_stdio_dispatch (fun _ _ => .ok (.str "R"))
      [("method", .str "mcp.CallTool"), ("id", .num 2),
       ("params", .obj [("name", .str "google_search"),
         ("arguments", .obj [("q", .str "ai")])])]
      [("name", .str "google_search"), ("arguments", .obj [("q", .str "ai")])]
      [("q", .str "ai")] "google_search" (.str "R")).2.1
      rfl rfl rfl rfl).1 (by decide) rfl
  · exact ((C5_stdio_dispatch (fun _ _ => .ok (.str "R"))
      [("method", .str "mcp.CallTool"), ("id", .num 3),
       ("params", .obj [("name", .str "nope")])]
      [("name", .str "nope")] [] "nope" .null).2.1
      rfl rfl rfl rfl).2 (by decide)

/-- C6: the stdio `handle_message` is total on message dicts — in this
embedding its type is `JObj → JObj`, so it yields a response dict on every
input and can propagate no exception — and an exception raised by a
dispatched tool call (or by handling a non-dict `params` value) is caught
and converted into an error response carrying the request's id and an
`error.message` that contains the exception's message. -/
theorem C6_handle_message_total (tools : String → JObj → Except String JVal)
    (message : JObj) (params args : JObj) (n e : String) (xs : List JVal) :
    (jIsStr (jGetD message "method" .null) "mcp.CallTool" = true →
      jGetD message "params" (.obj []) = .obj params →
      jGetD params "name" .null = .str n →
      jGetD params "arguments" (.obj []) = .obj args →
      n ∈ Stdio.dispatchNames → tools n args = .error e →
      Stdio.handleMessage tools message
        = Stdio.exceptionResponse (jGetD message "id" .null) e) ∧
    (jIsStr (jGetD message "method" .null) "mcp.CallTool" = true →
      jGetD message "params" (.obj []) = .arr xs →
      Stdio.handleMessage tools message
        = Stdio.exceptionResponse (jGetD message "id" .null)
            Stdio.nonDictError) ∧
    (∀ mid e0, jLookup (Stdio.exceptionResponse mid e0) "id" = some mid ∧
      jLookup (Stdio.exceptionResponse mid e0) "error"
        = some (.obj [("message",
            .str ("Erro interno do servidor: " ++ e0))]) ∧
      ∃ pre post, "Erro interno do servidor: " ++ e0 = pre ++ e0 ++ post) := by
  refine ⟨fun h hp hn ha hmem herr => ?_, fun h hp => ?_, fun mid e0 => ?_⟩
  · have hm := jIsStr_eq h
    have hgate := jOptTruthy_of_getD_str hm (by decide)
    unfold Stdio.handleMessage
    simp [hgate, hm, jIsStr, hp, hn, ha, hmem, herr]
  · have hm := jIsStr_eq h
    have hgate := jOptTruthy_of_getD_str hm (by decide)
    unfold Stdio.handleMessage
    simp [hgate, hm, jIsStr, hp]
  · exact ⟨by simp [Stdio.exceptionResponse, jLookup],
      by simp [Stdio.exceptionResponse, jLookup],
      "Erro interno do servidor: ", "", by simp⟩

/-- Witness for C6: a dispatched tool raising `boom` and a non-dict params
value, both converted to id-carrying error responses. -/
theorem C6_handle_message_total_witness :
    Stdio.handleMessage (fun _ _ => .error "boom")
        [("method", .str "mcp.CallTool"), ("id", .num 4),
         ("params", .obj [("name", .str "scrape")])]
      = Stdio.exceptionResponse (.num 4) "boom" ∧
    Stdio.handleMessage (fun _ _ => .ok .null)
        [("method", .str "mcp.CallTool"), ("id", .num 5),
         ("params", .arr [])]
      = Stdio.exceptionResponse (.num 5) Stdio.nonDictError := by
  constructor
  · exact (C6_handle_message_total (fun _ _ => .error "boom")
      [("method", .str "mcp.CallTool"), ("id", .num 4),
       ("params", .obj [("name", .str "scrape")])]
      [("name", .str "scrape")] [] "scrape" "boom" []).1
      rfl rfl rfl rfl (by decide) rfl
  · exact (C6_handle_message_total (fun _ _ => .ok .null)
      [("method", .str "mcp.CallTool"), ("id", .num 5),
       ("params", .arr [])]
      [] [] "x" "e" []).2.1 rfl rfl

/-- C3 counterexample: a registered session posts a toolInvocation whose
query is scrape-recognized (`"extrair"`) but carries no `url` parameter;
even with upstream oracles that always succeed, nothing is executed, the
message pushed over SSE is an error (not a `toolResult`), and the endpoint
returns HTTP 200 with `{"status": "error", ...}` instead of
`{"status": "ok"}` — refuting the claim's unconditional push-and-ok. -/
theorem C3_counterexample :
    (SSE.messagesEndpoint [("s1", ⟨"s1", []⟩)] (some "s1")
        [("type", .str "toolInvocation"), ("query", .str "extrair"),
         ("parameters", .obj [])]
        (fun _ => .ok .null) (fun _ _ => .ok .null)).body
      = SSE.errBody "URL não informada" ∧
    (SSE.messagesEndpoint [("s1", ⟨"s1", []⟩)] (some "s1")
        [("type", .str "toolInvocation"), ("query", .str "extrair"),
         ("parameters", .obj [])]
        (fun _ => .ok .null) (fun _ _ => .ok .null)).pushes
      = [("s1", SSE.errorMsg "URL não informada")] ∧
    (SSE.messagesEndpoint [("s1", ⟨"s1", []⟩)] (some "s1")
        [("type", .str "toolInvocation"), ("query", .str "extrair"),
         ("parameters", .obj [])]
        (fun _ => .ok .null) (fun _ _ => .ok .null)).status = 200 := by
  exact ⟨rfl, rfl, rfl⟩

/-- C3 (amended): a POST to `/messages` without a (non-empty) session
header, or with one not in the registry, fails with 400; with a registered
session and a non-`toolInvocation` type it fails with 400; with a
`toolInvocation` it runs `invokeTool` on the extracted query/parameters,
which executes a search (or a scrape for scrape-recognized queries) and,
*when the upstream call succeeds*, pushes its result as a `toolResult` over
the transport of that session id and returns `{"status": "ok"}`; a
scrape-recognized query without a `url`, or an upstream failure, instead
pushes an error message over the same transport and returns HTTP 200 with
`{"status": "error", ...}`. -/
theorem C3_messages_endpoint (reg : SSE.Registry) (sid : String)
    (message : JObj) (searchFn : JObj → Except String JVal)
    (scrapeFn : JVal → JVal → Except String JVal)
    (query : String) (parameters : JObj) (r : JVal) (e : String) :
    (SSE.messagesEndpoint reg none message searchFn scrapeFn).status
      = 400 ∧
    (SSE.regHasKey reg sid = false →
      (SSE.messagesEndpoint reg (some sid) message searchFn
        scrapeFn).status = 400) ∧
    (sid ≠ "" → SSE.regHasKey reg sid = true →
      (jIsStr (jGetD message "type" .null) "toolInvocation" = false →
        (SSE.messagesEndpoint reg (some sid) message searchFn
          scrapeFn).status = 400) ∧
      (jIsStr (jGetD message "type" .null) "toolInvocation" = true →
        jGetD message "query" (.str "") = .str query →
        jGetD message "parameters" (.obj []) = .obj parameters →
        SSE.messagesEndpoint reg (some sid) message searchFn scrapeFn
          = SSE.invokeTool sid query parameters searchFn scrapeFn reg)) ∧
    ((SSE.strHasLower query "google" || SSE.strHasLower query "busca")
        = true →
      (searchFn (SSE.searchArgsNum query parameters) = .ok r →
        SSE.invokeTool sid query parameters searchFn scrapeFn reg
          = { status := 200, body := SSE.okBody,
              pushes := [(sid, SSE.toolResultMsg "google_search" r)],
              registry := reg }) ∧
      (searchFn (SSE.searchArgsNum query parameters) = .error e →
        SSE.invokeTool sid query parameters searchFn scrapeFn reg
          = { status := 200, body := SSE.errBody e,
              pushes := [(sid,
                SSE.errorMsg ("Erro ao processar mensagem: " ++ e))],
              registry := reg })) ∧
    ((SSE.strHasLower query "google" || SSE.strHasLower query "busca")
        = false →
      (SSE.strHasLower query "scrape" || SSE.strHasLower query "extrair")
        = true →
      (jHasKey parameters "url" = false →
        SSE.invokeTool sid query parameters searchFn scrapeFn reg
          = { status := 200, body := SSE.errBody "URL não informada",
              pushes := [(sid, SSE.errorMsg "URL não informada")],
              registry := reg }) ∧
      (jHasKey parameters "url" = true →
        scrapeFn (jGetD parameters "url" .null)
            (jGetD parameters "includeMarkdown" (.bool false)) = .ok r →
        SSE.invokeTool sid query parameters searchFn scrapeFn reg
          = { status := 200, body := SSE.okBody,
              pushes := [(sid, SSE.toolResultMsg "scrape" r)],
              registry := reg })) ∧
    ((SSE.strHasLower query "google" || SSE.strHasLower query "busca")
        = false →
      (SSE.strHasLower query "scrape" || SSE.strHasLower query "extrair")
        = false →
      searchFn (SSE.searchArgsPlain query parameters) = .ok r →
      SSE.invokeTool sid query parameters searchFn scrapeFn reg
        = { status := 200, body := SSE.okBody,
            pushes := [(sid, SSE.toolResultMsg "google_search" r)],
            registry := reg }) := by
  refine ⟨rfl, fun hk => ?_, fun hs hk => ⟨fun ht => ?_, fun ht hq hp => ?_⟩,
    fun hg => ⟨fun hok => ?_, fun herr => ?_⟩,
    fun hg hsc => ⟨fun hu => ?_, fun hu hok => ?_⟩, fun hg hsc hok => ?_⟩
  · simp [SSE.messagesEndpoint, hk]
  · simp [SSE.messagesEndpoint, hs, hk, ht]
  · simp [SSE.messagesEndpoint, hs, hk, ht, hq, hp]
  · simp [SSE.invokeTool, hg, hok]
  · simp [SSE.invokeTool, hg, herr]
  · simp [SSE.invokeTool, hg, hsc, hu]
  · simp [SSE.invokeTool, hg, hsc, hu, hok]
  · simp [SSE.invokeTool, hg, hsc, hok]

/-- Witness for C3 (amended): a missing header, and a successful
`busca`-query invocation pushing its toolResult to the registered session.-/
theorem C3_messages_endpoint_witness :
    (SSE.messagesEndpoint [("s1", ⟨"s1", []⟩)] none
        [("type", .str "toolInvocation"), ("query", .str "busca ai"),
         ("parameters", .obj [])]
        (fun _ => .ok (.str "R")) (fun _ _ => .ok .null)).status = 400 ∧
    SSE.messagesEndpoint [("s1", ⟨"s1", []⟩)] (some "s1")
        [("type", .str "toolInvocation"), ("query", .str "busca ai"),
         ("parameters", .obj [])]
        (fun _ => .ok (.str "R")) (fun _ _ => .ok .null)
      = { status := 200, body := SSE.okBody,
          pushes := [("s1", SSE.toolResultMsg "google_search" (.str "R"))],
          registry := [("s1", ⟨"s1", []⟩)] } := by
  have h := C3_messages_endpoint [("s1", ⟨"s1", []⟩)] "s1"
    [("type", .str "toolInvocation"), ("query", .str "busca ai"),
     ("parameters", .obj [])]
    (fun _ => .ok (.str "R")) (fun _ _ => .ok .null)
    "busca ai" [] (.str "R") "e"
  refine ⟨h.1, ?_⟩
  have hd := (h.2.2.1 (by decide) rfl).2 rfl rfl rfl
  have hg := (h.2.2.2.1 (by decide)).1 rfl
  exact hd.trans hg
